import Mathlib

set_option maxRecDepth 4096

/-!
Shallow embedding of the k6 load script `src/scripts/load.js`.

The script reads environment values (`URL`, `CHAOS`, `LAT`, `ERR`, `CPU`,
`USERS`, `DUR`), assembles a chaos directive string, builds a request URL
and, on every iteration of every virtual user, issues one HTTP GET with a
60-second timeout followed by a 1-second sleep.

Environment variables are modelled as `Option String` (`none` = unset).
JavaScript truthiness on an env value: `undefined` and `""` are falsy,
every other string is truthy.
-/

/-- An environment-variable record, one field per variable the script reads. -/
structure Env where
  url : Option String
  chaos : Option String
  lat : Option String
  err : Option String
  cpu : Option String
  users : Option String
  dur : Option String
deriving DecidableEq

/-- JavaScript truthiness of an environment value: unset and the empty
string are falsy, any other string is truthy. -/
def truthy : Option String → Bool
  | none => false
  | some s => s ≠ ""

/-- The `parts` list built by lines 15-18 of `load.js`:
`if (__ENV.LAT) parts.push(...)` etc., in the fixed order lat, err, cpu. -/
def chaosParts (env : Env) : List String :=
  (if truthy env.lat then ["lat:" ++ env.lat.getD ""] else []) ++
  (if truthy env.err then ["err:" ++ env.err.getD ""] else []) ++
  (if truthy env.cpu then ["cpu:" ++ env.cpu.getD ""] else [])

/-- The chaos string of lines 13-20: `let chaos = __ENV.CHAOS || ""`,
then if falsy, `parts.join(',')`. -/
def chaosString (env : Env) : String :=
  let c := match env.chaos with
    | some s => s
    | none => ""
  if c = "" then String.intercalate "," (chaosParts env) else c

/-- JavaScript string interpolation of a possibly-undefined value:
a template literal renders `undefined` as the string "undefined". -/
def jsStr : Option String → String
  | none => "undefined"
  | some s => s

/-- UTF-8 byte sequence of a Unicode code point (as natural numbers < 256
for every valid code point). -/
def utf8Bytes (n : Nat) : List Nat :=
  if n < 128 then [n]
  else if n < 2048 then [192 + n / 64, 128 + n % 64]
  else if n < 65536 then [224 + n / 4096, 128 + (n / 64) % 64, 128 + n % 64]
  else [240 + n / 262144, 128 + (n / 4096) % 64, 128 + (n / 64) % 64, 128 + n % 64]

/-- Uppercase hexadecimal digit for a value below 16, as used by
`encodeURIComponent` percent-escapes. -/
def hexDigitUpper (n : Nat) : Char :=
  if n < 10 then Char.ofNat (48 + n) else Char.ofNat (55 + n)

/-- The characters `encodeURIComponent` leaves unescaped:
`A-Z a-z 0-9 - _ . ! ~ * ' ( )` (ECMA-262). -/
def isUnreservedChar (c : Char) : Bool :=
  c.isAlpha || c.isDigit || c = '-' || c = '_' || c = '.' || c = '!' ||
  c = '~' || c = '*' || c = Char.ofNat 39 || c = '(' || c = ')'

/-- Per-character output of `encodeURIComponent`: an unreserved character
passes through, any other character becomes the `%XX` escapes of its
UTF-8 bytes (uppercase hex). -/
def encodeCharList (c : Char) : List Char :=
  if isUnreservedChar c then [c]
  else (utf8Bytes c.toNat).flatMap
    (fun b => ['%', hexDigitUpper (b / 16), hexDigitUpper (b % 16)])

/-- The ECMAScript `encodeURIComponent` builtin, used at line 22 of
`load.js`. -/
def encodeURIComponent (s : String) : String :=
  ⟨s.data.flatMap encodeCharList⟩

/-- Line 22 of `load.js`:
`const fullUrl = chaos ? url + "?chaos=" + encodeURIComponent(chaos) : url`.
When `chaos` is falsy (empty) the undefined-or-string `url` value passes
through unchanged; when truthy, `url` is rendered into a template literal. -/
def fullUrl (env : Env) : Option String :=
  if chaosString env = "" then env.url
  else some (jsStr env.url ++ "?chaos=" ++ encodeURIComponent (chaosString env))

/-- Observable side effects of one iteration of the script body. -/
inductive Effect where
  | httpGet (target : Option String) (timeout : String)
  | sleep (seconds : Nat)
deriving DecidableEq

/-- Whether an effect is an HTTP GET. -/
def Effect.isGet : Effect → Bool
  | .httpGet _ _ => true
  | .sleep _ => false

/-- Minimal model of the HTTP response handed back by the client;
the script never looks at it. -/
structure HttpResponse where
  status : Nat
  body : String

/-- The default-exported iteration body (lines 9-28 of `load.js`),
parameterised by the HTTP client: it computes the target, performs the GET
(discarding the response, as the source does), and sleeps 1 second. -/
def iterationBody (env : Env) (client : Option String → HttpResponse) :
    List Effect :=
  let target := fullUrl env
  let _res := client target
  [Effect.httpGet target "60s", Effect.sleep 1]

/-- The effect trace of one iteration: one GET with a 60s timeout to the
constructed target, then a 1-second sleep. -/
def iterationTrace (env : Env) : List Effect :=
  [Effect.httpGet (fullUrl env) "60s", Effect.sleep 1]

/-- Effect trace of `n` iterations as the source runs them: the chaos
string and URL are recomputed inside the body on every iteration. -/
def runTrace (env : Env) (n : Nat) : List Effect :=
  (List.range n).flatMap (fun _ => iterationTrace env)

/-- Effect trace of `n` iterations with the request target computed once
before the loop and reused (the spec's compute-once reading). -/
def runTraceCached (env : Env) (n : Nat) : List Effect :=
  let target := fullUrl env
  (List.range n).flatMap (fun _ => [Effect.httpGet target "60s", Effect.sleep 1])

/-- A JavaScript number that is either NaN or (for the integer-valued
inputs this script can meet) an integer. -/
inductive JSNum where
  | nan
  | num (v : Int)
deriving DecidableEq

/-- Digit-string accumulator for decimal numerals. -/
def decDigitsAux (acc : Nat) : List Char → Option Nat
  | [] => some acc
  | c :: rest =>
    if c.isDigit then decDigitsAux (acc * 10 + (c.toNat - 48)) rest else none

/-- Modelled from the spec and ECMA-262: the `Number` coercion of a string,
restricted to optionally-signed decimal integer numerals; the empty string
coerces to 0 and any other non-numeral string to NaN. (Fractional,
exponent and radix-prefixed forms are not modelled; the script's claims
only involve integer-valued and non-numeric strings.) -/
def jsNumber (s : String) : JSNum :=
  match s.data with
  | [] => JSNum.num 0
  | '-' :: rest =>
    match rest, decDigitsAux 0 rest with
    | _ :: _, some n => JSNum.num (-(n : Int))
    | _, _ => JSNum.nan
  | '+' :: rest =>
    match rest, decDigitsAux 0 rest with
    | _ :: _, some n => JSNum.num (n : Int)
    | _, _ => JSNum.nan
  | l =>
    match decDigitsAux 0 l with
    | some n => JSNum.num (n : Int)
    | none => JSNum.nan

/-- Line 5 of `load.js`: `vus: Number(__ENV.USERS || 150)`. A falsy
`USERS` (unset or empty) makes the `||` yield the number 150, which
`Number` keeps; otherwise the string is coerced. -/
def vus (env : Env) : JSNum :=
  match env.users with
  | some s => if s = "" then JSNum.num 150 else jsNumber s
  | none => JSNum.num 150

/-- Line 6 of `load.js`: `duration: __ENV.DUR || '3m'`. -/
def duration (env : Env) : String :=
  match env.dur with
  | some s => if s = "" then "3m" else s
  | none => "3m"

/-- Spec-side token for one optional chaos component: `<key>:<value>`,
present exactly when the input is set and non-empty. -/
def specToken (key : String) (v : Option String) : List String :=
  match v with
  | some s => if s = "" then [] else [key ++ ":" ++ s]
  | none => []

/-- Spec-side chaos string: the comma-joined tokens in fixed order
lat, err, cpu, omitting absent components. -/
def specChaosJoin (env : Env) : String :=
  String.intercalate ","
    (specToken "lat" env.lat ++ specToken "err" env.err ++ specToken "cpu" env.cpu)

/-- Numeric value of a hexadecimal digit character, if it is one. -/
def hexVal (c : Char) : Option Nat :=
  if '0' ≤ c ∧ c ≤ '9' then some (c.toNat - 48)
  else if 'A' ≤ c ∧ c ≤ 'F' then some (c.toNat - 55)
  else if 'a' ≤ c ∧ c ≤ 'f' then some (c.toNat - 87)
  else none

/-- Percent-decoding to a byte stream: each `%XX` escape contributes the
byte `XX`, any other character contributes its own UTF-8 bytes; a
malformed escape fails. -/
def pctDecodeBytes : List Char → Option (List Nat)
  | [] => some []
  | c :: rest =>
    if c = '%' then
      match rest with
      | h :: l :: rest2 =>
        match hexVal h, hexVal l with
        | some a, some b =>
          Option.map (fun bs => (16 * a + b) :: bs) (pctDecodeBytes rest2)
        | _, _ => none
      | _ => none
    else Option.map (fun bs => utf8Bytes c.toNat ++ bs) (pctDecodeBytes rest)

/-- Whether a byte is a UTF-8 continuation byte (`10xxxxxx`). -/
def isCont (b : Nat) : Bool :=
  decide (128 ≤ b ∧ b < 192)

/-- Decode one UTF-8 code point from the front of a byte stream, returning
the code point and the remaining bytes; fails on an empty stream, a stray
or missing continuation byte or an invalid leading byte. -/
def utf8DecodeOne : List Nat → Option (Nat × List Nat)
  | [] => none
  | b :: t =>
    if b < 128 then some (b, t)
    else if b < 192 then none
    else if b < 224 then
      match t with
      | b1 :: t1 =>
        if isCont b1 then some ((b - 192) * 64 + (b1 - 128), t1) else none
      | [] => none
    else if b < 240 then
      match t with
      | b1 :: b2 :: t2 =>
        if isCont b1 && isCont b2 then
          some ((b - 224) * 4096 + (b1 - 128) * 64 + (b2 - 128), t2)
        else none
      | _ => none
    else if b < 248 then
      match t with
      | b1 :: b2 :: b3 :: t3 =>
        if isCont b1 && isCont b2 && isCont b3 then
          some ((b - 240) * 262144 + (b1 - 128) * 4096 + (b2 - 128) * 64 + (b3 - 128), t3)
        else none
      | _ => none
    else none

/-- UTF-8 decoding of a whole byte stream into characters, one code point
at a time. -/
def utf8Decode (l : List Nat) : Option (List Char) :=
  if l = [] then some []
  else
    match h : utf8DecodeOne l with
    | some (n, rest) => Option.map (fun cs => Char.ofNat n :: cs) (utf8Decode rest)
    | none => none
termination_by l.length
decreasing_by
  rcases l with _ | ⟨b, t⟩
  · simp [utf8DecodeOne] at h
  · rw [utf8DecodeOne.eq_def] at h
    dsimp only at h
    split_ifs at h
    · cases h
      simp
    · rcases t with _ | ⟨b1, t1⟩
      · cases h
      · dsimp only at h
        split_ifs at h
        cases h
        simp
        omega
    · rcases t with _ | ⟨b1, t1⟩
      · cases h
      · rcases t1 with _ | ⟨b2, t2⟩
        · cases h
        · dsimp only at h
          split_ifs at h
          cases h
          simp
          omega
    · rcases t with _ | ⟨b1, t1⟩
      · cases h
      · rcases t1 with _ | ⟨b2, t2⟩
        · cases h
        · rcases t2 with _ | ⟨b3, t3⟩
          · cases h
          · dsimp only at h
            split_ifs at h
            cases h
            simp
            omega

/-- Percent-decoding of a string (the inverse direction of
`encodeURIComponent`): decode escapes to bytes, then UTF-8-decode. -/
def decodeURIComponent (s : String) : Option String :=
  (pctDecodeBytes s.data).bind (fun bs => (utf8Decode bs).map fun cs => ⟨cs⟩)

/-- Environment with no variable set at all. -/
def envEmpty : Env := ⟨none, none, none, none, none, none, none⟩

/-- The spec's first concrete scenario: URL set, LAT=100ms, ERR empty,
CPU=50, CHAOS unset. -/
def envScenario1 : Env :=
  ⟨some "http://svc/ping", none, some "100ms", some "", some "50", none, none⟩

/-- The spec's third concrete scenario: CHAOS=custom:xyz with LAT also set. -/
def envScenario2 : Env :=
  ⟨some "http://svc/ping", some "custom:xyz", some "ignored", none, none, none, none⟩

/-- The spec's second concrete scenario: URL set, nothing else. -/
def envScenario3 : Env :=
  ⟨some "http://svc/ping", none, none, none, none, none, none⟩

/-- Environment with URL missing but a latency chaos component set. -/
def envNoUrl : Env := ⟨none, none, some "1s", none, none, none, none⟩

/-- Environment with a non-numeric USERS value. -/
def envUsersAbc : Env := ⟨none, none, none, none, none, some "abc", none⟩

/-- Environment with USERS set to the string "0". -/
def envUsersZero : Env := ⟨none, none, none, none, none, some "0", none⟩

/-- Environment with CHAOS set to the empty string and components set. -/
def envChaosEmpty : Env :=
  ⟨some "http://svc/ping", some "", some "100ms", none, some "50", none, none⟩

theorem hexVal_hexDigitUpper : ∀ n, n < 16 → hexVal (hexDigitUpper n) = some n := by
  decide

theorem utf8Bytes_lt256 (n : Nat) (hn : n < 1114112) : ∀ b ∈ utf8Bytes n, b < 256 := by
  intro b hb
  unfold utf8Bytes at hb
  split_ifs at hb <;> simp_all <;> omega

theorem utf8Bytes_ne_nil (n : Nat) : utf8Bytes n ≠ [] := by
  unfold utf8Bytes
  split_ifs <;> simp

theorem char_toNat_lt (c : Char) : c.toNat < 1114112 := by
  have h := c.valid
  simp only [UInt32.isValidChar, Nat.isValidChar] at h
  rcases h with h | h
  · exact Nat.lt_trans h (by norm_num)
  · exact h.2

theorem pctDecode_triple (b : Nat) (hb : b < 256) (rest : List Char) :
    pctDecodeBytes ('%' :: hexDigitUpper (b / 16) :: hexDigitUpper (b % 16) :: rest) =
      Option.map (fun bs => b :: bs) (pctDecodeBytes rest) := by
  have h1 : hexVal (hexDigitUpper (b / 16)) = some (b / 16) :=
    hexVal_hexDigitUpper _ (by omega)
  have h2 : hexVal (hexDigitUpper (b % 16)) = some (b % 16) :=
    hexVal_hexDigitUpper _ (by omega)
  simp only [pctDecodeBytes, if_pos rfl, h1, h2, if_true]
  have e : 16 * (b / 16) + b % 16 = b := by omega
  simp [e]

theorem pctDecode_escapes (bs : List Nat) (h : ∀ b ∈ bs, b < 256) (rest : List Char) :
    pctDecodeBytes
      ((bs.flatMap fun b => ['%', hexDigitUpper (b / 16), hexDigitUpper (b % 16)]) ++ rest) =
      Option.map (fun l => bs ++ l) (pctDecodeBytes rest) := by
  induction bs with
  | nil => cases hp : pctDecodeBytes rest <;> simp [hp]
  | cons b bs ih =>
    simp only [List.flatMap_cons, List.cons_append, List.append_assoc]
    rw [pctDecode_triple b (h b (by simp)) _, List.nil_append,
      ih (fun x hx => h x (by simp [hx]))]
    cases hp : pctDecodeBytes rest <;> simp [hp]

theorem unreserved_ne_percent (c : Char) (h : isUnreservedChar c = true) :
    ¬(c = '%') := by
  intro he
  subst he
  exact absurd h (by decide)

theorem pctDecode_encodeChar (c : Char) (rest : List Char) :
    pctDecodeBytes (encodeCharList c ++ rest) =
      Option.map (fun l => utf8Bytes c.toNat ++ l) (pctDecodeBytes rest) := by
  by_cases h : isUnreservedChar c
  · simp only [encodeCharList, if_pos h, List.cons_append, List.nil_append]
    rw [pctDecodeBytes.eq_def]
    dsimp only
    rw [if_neg (unreserved_ne_percent c h)]
  · simp only [encodeCharList, if_neg h]
    exact pctDecode_escapes _ (utf8Bytes_lt256 _ (char_toNat_lt c)) rest

theorem pctDecode_encode (l : List Char) :
    pctDecodeBytes (l.flatMap encodeCharList) =
      some (l.flatMap fun c => utf8Bytes c.toNat) := by
  induction l with
  | nil => rfl
  | cons c cs ih =>
    simp only [List.flatMap_cons]
    rw [pctDecode_encodeChar, ih]
    rfl

theorem isCont_mod64 (n : Nat) : isCont (128 + n % 64) = true := by
  simp only [isCont, decide_eq_true_eq]
  omega

theorem utf8DecodeOne_bytes (n : Nat) (hn : n < 1114112) (rest : List Nat) :
    utf8DecodeOne (utf8Bytes n ++ rest) = some (n, rest) := by
  unfold utf8Bytes
  split_ifs with h1 h2 h3
  · simp only [List.cons_append, List.nil_append]
    rw [utf8DecodeOne.eq_def]
    dsimp only
    rw [if_pos h1]
  · simp only [List.cons_append, List.nil_append]
    rw [utf8DecodeOne.eq_def]
    dsimp only
    rw [if_neg (by omega), if_neg (by omega), if_pos (by omega),
      if_pos (isCont_mod64 n)]
    have e : (192 + n / 64 - 192) * 64 + (128 + n % 64 - 128) = n := by omega
    rw [e]
  · simp only [List.cons_append, List.nil_append]
    rw [utf8DecodeOne.eq_def]
    dsimp only
    rw [if_neg (by omega), if_neg (by omega), if_neg (by omega),
      if_pos (by omega)]
    rw [if_pos (by simp only [isCont_mod64, Bool.and_self])]
    have e : (224 + n / 4096 - 224) * 4096 + (128 + n / 64 % 64 - 128) * 64 +
        (128 + n % 64 - 128) = n := by omega
    rw [e]
  · simp only [List.cons_append, List.nil_append]
    rw [utf8DecodeOne.eq_def]
    dsimp only
    rw [if_neg (by omega), if_neg (by omega), if_neg (by omega),
      if_neg (by omega), if_pos (by omega)]
    rw [if_pos (by simp only [isCont_mod64, Bool.and_self])]
    have e : (240 + n / 262144 - 240) * 262144 + (128 + n / 4096 % 64 - 128) * 4096 +
        (128 + n / 64 % 64 - 128) * 64 + (128 + n % 64 - 128) = n := by omega
    rw [e]

theorem utf8Decode_bytes (n : Nat) (hn : n < 1114112) (rest : List Nat) :
    utf8Decode (utf8Bytes n ++ rest) =
      Option.map (fun cs => Char.ofNat n :: cs) (utf8Decode rest) := by
  have hne : utf8Bytes n ++ rest ≠ [] := by
    simp [utf8Bytes_ne_nil n]
  rw [utf8Decode.eq_def, if_neg hne]
  split
  case _ m rest2 heq =>
    rw [utf8DecodeOne_bytes n hn rest] at heq
    simp only [Option.some.injEq, Prod.mk.injEq] at heq
    rw [heq.1, heq.2]
  case _ heq =>
    rw [utf8DecodeOne_bytes n hn rest] at heq
    cases heq

theorem utf8Decode_encode (l : List Char) :
    utf8Decode (l.flatMap fun c => utf8Bytes c.toNat) = some l := by
  induction l with
  | nil =>
    show utf8Decode [] = some []
    rw [utf8Decode.eq_def]
    simp
  | cons c cs ih =>
    simp only [List.flatMap_cons]
    rw [utf8Decode_bytes c.toNat (char_toNat_lt c), ih]
    simp [Char.ofNat_toNat]

theorem decodeURIComponent_encodeURIComponent (s : String) :
    decodeURIComponent (encodeURIComponent s) = some s := by
  have h1 : pctDecodeBytes (encodeURIComponent s).data =
      some (s.data.flatMap fun c => utf8Bytes c.toNat) := pctDecode_encode s.data
  have h2 := utf8Decode_encode s.data
  simp [decodeURIComponent, h1, h2]

theorem chaosString_of_chaos_falsy (env : Env) (h : truthy env.chaos = false) :
    chaosString env = String.intercalate "," (chaosParts env) := by
  unfold chaosString
  rcases henv : env.chaos with _ | s
  · simp
  · rw [henv] at h
    simp only [truthy, decide_eq_false_iff_not, not_not] at h
    simp [h]

theorem chaosParts_eq_specTokens (env : Env) :
    chaosParts env =
      specToken "lat" env.lat ++ specToken "err" env.err ++ specToken "cpu" env.cpu := by
  have hl : ∀ s : String, "lat" ++ ":" ++ s = "lat:" ++ s := fun s => rfl
  have he : ∀ s : String, "err" ++ ":" ++ s = "err:" ++ s := fun s => rfl
  have hc : ∀ s : String, "cpu" ++ ":" ++ s = "cpu:" ++ s := fun s => rfl
  unfold chaosParts specToken
  rcases env.lat with _ | s <;> rcases env.err with _ | t <;> rcases env.cpu with _ | u <;>
    simp [truthy, hl, he, hc]

/-- C1: for every combination of presence and absence of LAT, ERR and CPU,
with CHAOS unset, the assembled chaos string is the comma-joined list of
tokens `lat:<LAT>`, `err:<ERR>`, `cpu:<CPU>` in that fixed order, a token
present exactly when its input is non-empty; it is empty when all three
are absent, and LAT=100ms, ERR empty, CPU=50 gives `lat:100ms,cpu:50`. -/
theorem chaos_assembly_C1 (env : Env) (h : env.chaos = none) :
    chaosString env = specChaosJoin env ∧
    (env.lat = none → env.err = none → env.cpu = none → chaosString env = "") ∧
    chaosString envScenario1 = "lat:100ms,cpu:50" := by
  have h1 : chaosString env = specChaosJoin env := by
    rw [chaosString_of_chaos_falsy env (by rw [h]; rfl), chaosParts_eq_specTokens]
    rfl
  refine ⟨h1, ?_, by decide⟩
  intro hl he hc
  rw [h1]
  simp [specChaosJoin, specToken, hl, he, hc]
  rfl

/-- C1 witness: the theorem applied to the spec's first concrete scenario. -/
theorem chaos_assembly_C1_witness :
    chaosString envScenario1 = specChaosJoin envScenario1 ∧
    chaosString envScenario1 = "lat:100ms,cpu:50" :=
  ⟨(chaos_assembly_C1 envScenario1 rfl).1, (chaos_assembly_C1 envScenario1 rfl).2.2⟩

/-- C2: when CHAOS is a non-empty string the chaos string equals CHAOS
verbatim, and the values of LAT, ERR and CPU have no effect on it. -/
theorem chaos_verbatim_C2 (env : Env) (s : String) (hc : env.chaos = some s)
    (hs : s ≠ "") :
    chaosString env = s ∧
    ∀ l e c, chaosString { env with lat := l, err := e, cpu := c } = s := by
  have key : ∀ env2 : Env, env2.chaos = some s → chaosString env2 = s := by
    intro env2 h2
    unfold chaosString
    rw [h2]
    simp [hs]
  exact ⟨key env hc, fun l e c => key _ (by simp [hc])⟩

/-- C2 witness: CHAOS=custom:xyz with LAT=ignored gives `custom:xyz`. -/
theorem chaos_verbatim_C2_witness :
    chaosString envScenario2 = "custom:xyz" :=
  (chaos_verbatim_C2 envScenario2 "custom:xyz" rfl (by decide)).1

/-- C3: when CHAOS, LAT, ERR, CPU are all unset or empty, the request URL
of every iteration is exactly the configured base URL value, with no
`?chaos=` suffix or other modification. -/
theorem empty_chaos_url_C3 (env : Env) (hc : truthy env.chaos = false)
    (hl : truthy env.lat = false) (he : truthy env.err = false)
    (hcp : truthy env.cpu = false) :
    fullUrl env = env.url ∧
    iterationTrace env = [Effect.httpGet env.url "60s", Effect.sleep 1] := by
  have hempty : chaosString env = "" := by
    rw [chaosString_of_chaos_falsy env hc]
    unfold chaosParts
    rw [hl, he, hcp]
    rfl
  constructor
  · unfold fullUrl
    rw [if_pos hempty]
  · unfold iterationTrace fullUrl
    rw [if_pos hempty]

/-- C3 witness: URL=http://svc/ping with nothing else set gives the bare
base URL as request target. -/
theorem empty_chaos_url_C3_witness :
    fullUrl envScenario3 = some "http://svc/ping" ∧
    iterationTrace envScenario3 =
      [Effect.httpGet (some "http://svc/ping") "60s", Effect.sleep 1] :=
  ⟨(empty_chaos_url_C3 envScenario3 rfl rfl rfl rfl).1,
    (empty_chaos_url_C3 envScenario3 rfl rfl rfl rfl).2⟩

/-- C4: when the assembled chaos string is non-empty the request URL is
the base URL followed by `?chaos=` and the URL-encoding of the chaos
string, and percent-decoding the encoded value yields the chaos string
back exactly. -/
theorem chaos_url_roundtrip_C4 (env : Env) (u : String) (hu : env.url = some u)
    (h : chaosString env ≠ "") :
    fullUrl env = some (u ++ "?chaos=" ++ encodeURIComponent (chaosString env)) ∧
    decodeURIComponent (encodeURIComponent (chaosString env)) =
      some (chaosString env) := by
  constructor
  · unfold fullUrl
    rw [if_neg h, hu]
    rfl
  · exact decodeURIComponent_encodeURIComponent _

/-- C4 witness: the spec's first concrete scenario, where the encoded
query value is `lat%3A100ms%2Ccpu%3A50`. -/
theorem chaos_url_roundtrip_C4_witness :
    chaosString envScenario1 ≠ "" ∧
    fullUrl envScenario1 =
      some ("http://svc/ping" ++ "?chaos=" ++ encodeURIComponent (chaosString envScenario1)) ∧
    decodeURIComponent (encodeURIComponent (chaosString envScenario1)) =
      some (chaosString envScenario1) :=
  ⟨by decide, (chaos_url_roundtrip_C4 envScenario1 "http://svc/ping" rfl (by decide)).1,
    (chaos_url_roundtrip_C4 envScenario1 "http://svc/ping" rfl (by decide)).2⟩

/-- C5 counterexample: with URL unset the script does not fail at startup;
the iteration still issues exactly one HTTP GET, whose target interpolates
the undefined URL as the string "undefined". -/
theorem missing_url_counterexample_C5 :
    envNoUrl.url = none ∧
    (iterationTrace envNoUrl).countP Effect.isGet = 1 ∧
    fullUrl envNoUrl = some "undefined?chaos=lat%3A1s" := by
  refine ⟨rfl, rfl, by decide⟩

/-- C5 (amended): a missing URL is not detected: the script performs no
configuration check, and every iteration still issues its single HTTP GET
with the undefined URL value passed through to the client. -/
theorem missing_url_no_check_C5 (env : Env) (h : env.url = none) :
    (iterationTrace env).countP Effect.isGet = 1 ∧
    iterationTrace env = [Effect.httpGet (fullUrl env) "60s", Effect.sleep 1] :=
  ⟨rfl, rfl⟩

/-- C5 witness: the amended theorem applied to the URL-less environment. -/
theorem missing_url_no_check_C5_witness :
    (iterationTrace envNoUrl).countP Effect.isGet = 1 :=
  (missing_url_no_check_C5 envNoUrl rfl).1

/-- C6 counterexample: USERS="abc" is non-numeric, yet the resolved
virtual-user count is NaN, not the claimed default 150. -/
theorem users_default_counterexample_C6 :
    envUsersAbc.users = some "abc" ∧
    vus envUsersAbc = JSNum.nan ∧
    JSNum.nan ≠ JSNum.num 150 :=
  ⟨rfl, by decide, by decide⟩

/-- C6 (amended): the resolved virtual-user count is 150 when USERS is
unset or empty and otherwise equals the Number coercion of USERS (NaN for
a non-numeric string, with no fallback to 150); the resolved duration is
"3m" when DUR is unset or empty and DUR itself otherwise; integer-valued
USERS strings coerce to their integer. -/
theorem users_duration_defaults_C6 (env : Env) :
    (env.users = none ∨ env.users = some "" → vus env = JSNum.num 150) ∧
    (∀ s, env.users = some s → s ≠ "" → vus env = jsNumber s) ∧
    (env.dur = none ∨ env.dur = some "" → duration env = "3m") ∧
    (∀ s, env.dur = some s → s ≠ "" → duration env = s) ∧
    jsNumber "150" = JSNum.num 150 := by
  refine ⟨?_, ?_, ?_, ?_, by decide⟩
  · rintro (h | h) <;> simp [vus, h]
  · intro s h hs
    simp [vus, h, hs]
  · rintro (h | h) <;> simp [duration, h]
  · intro s h hs
    simp [duration, h, hs]

/-- C6 witness: the amended theorem applied to concrete environments. -/
theorem users_duration_defaults_C6_witness :
    vus envEmpty = JSNum.num 150 ∧
    duration envEmpty = "3m" ∧
    vus envUsersAbc = jsNumber "abc" :=
  ⟨(users_duration_defaults_C6 envEmpty).1 (Or.inl rfl),
    (users_duration_defaults_C6 envEmpty).2.2.1 (Or.inl rfl),
    (users_duration_defaults_C6 envUsersAbc).2.1 "abc" rfl (by decide)⟩

/-- C7: every iteration performs exactly one HTTP GET to the constructed
target with a 60-second timeout followed by one 1-second sleep; the trace
does not depend on the HTTP client's responses, and contains exactly one
GET and one non-GET effect. -/
theorem iteration_effects_C7 (env : Env) (client : Option String → HttpResponse) :
    iterationBody env client = [Effect.httpGet (fullUrl env) "60s", Effect.sleep 1] ∧
    (∀ c2 : Option String → HttpResponse, iterationBody env client = iterationBody env c2) ∧
    (iterationBody env client).countP Effect.isGet = 1 ∧
    (iterationBody env client).countP (fun e => !(e.isGet)) = 1 :=
  ⟨rfl, fun _ => rfl, rfl, rfl⟩

/-- C8: for a fixed environment, recomputing the chaos string and URL in
every iteration yields the same run trace as computing the target once and
reusing it, and every GET in the run targets the same URL. -/
theorem recompute_once_C8 (env : Env) (n : Nat) :
    runTrace env n = runTraceCached env n ∧
    ∀ e ∈ runTrace env n,
      e = Effect.httpGet (fullUrl env) "60s" ∨ e = Effect.sleep 1 := by
  refine ⟨rfl, ?_⟩
  intro e he
  simp only [runTrace, iterationTrace, List.mem_flatMap, List.mem_range] at he
  obtain ⟨i, _, hmem⟩ := he
  simp at hmem
  tauto

/-- C9: CHAOS set to the empty string behaves exactly as CHAOS unset: the
chaos string is assembled from LAT, ERR and CPU. -/
theorem empty_chaos_var_C9 (env : Env) (h : env.chaos = some "") :
    chaosString env = chaosString { env with chaos := none } ∧
    fullUrl env = fullUrl { env with chaos := none } ∧
    chaosString env = String.intercalate "," (chaosParts env) := by
  have h1 : chaosString env = String.intercalate "," (chaosParts env) :=
    chaosString_of_chaos_falsy env (by rw [h]; decide)
  have h2 : chaosString { env with chaos := none } =
      String.intercalate "," (chaosParts { env with chaos := none }) :=
    chaosString_of_chaos_falsy _ rfl
  have h3 : chaosParts { env with chaos := none } = chaosParts env := rfl
  have hc : chaosString env = chaosString { env with chaos := none } := by
    rw [h1, h2, h3]
  refine ⟨hc, ?_, h1⟩
  unfold fullUrl
  rw [hc]

/-- C9 witness: the theorem applied to CHAOS="" with LAT and CPU set. -/
theorem empty_chaos_var_C9_witness :
    chaosString envChaosEmpty = chaosString { envChaosEmpty with chaos := none } ∧
    chaosString envChaosEmpty = String.intercalate "," (chaosParts envChaosEmpty) :=
  ⟨(empty_chaos_var_C9 envChaosEmpty rfl).1, (empty_chaos_var_C9 envChaosEmpty rfl).2.2⟩

/-- C10: for every set non-empty USERS string the resolved virtual-user
count equals the Number coercion of that string with no further check:
"0" gives 0, a negative integer string gives that negative value, and a
non-numeric string gives NaN; none of these fall back to 150. -/
theorem users_number_coercion_C10 (env : Env) (s : String) (h : env.users = some s)
    (hs : s ≠ "") :
    vus env = jsNumber s ∧
    jsNumber "0" = JSNum.num 0 ∧
    jsNumber "-12" = JSNum.num (-12) ∧
    jsNumber "abc" = JSNum.nan ∧
    jsNumber "0" ≠ JSNum.num 150 ∧
    jsNumber "-12" ≠ JSNum.num 150 ∧
    jsNumber "abc" ≠ JSNum.num 150 := by
  refine ⟨?_, by decide, by decide, by decide, by decide, by decide, by decide⟩
  simp [vus, h, hs]

/-- C10 witness: USERS="0" resolves to the count 0. -/
theorem users_number_coercion_C10_witness :
    vus envUsersZero = jsNumber "0" ∧ jsNumber "0" = JSNum.num 0 :=
  ⟨(users_number_coercion_C10 envUsersZero "0" rfl (by decide)).1,
    (users_number_coercion_C10 envUsersZero "0" rfl (by decide)).2.1⟩
